import Mathlib

/-!
Verification of the NomaIQ Home Assistant integration (custom_components/nomaiq):
a shallow embedding of the adaptive-polling coordinator (coordinator.py) and of
the optimistic light entity (light.py), with theorems checking the behavioural
claims of the specification against this embedding.

Conventions of the embedding:
- Device property values are the integers and strings actually used by this
  integration (power, brightness, color_temp, color_select, color_saturation
  as integers; mode, door_status, voice_data as strings).
- Time stamps and timedelta seconds are integers (the Python code holds floats,
  but every comparison made by the code is against the integer constants 2 and
  30, and no claim depends on fractional seconds).
- Exceptions are explicit: fallible steps return an Except value, and the
  outcome of each external call (auth check, roster fetch, per-device refresh)
  is supplied by a TickEnv record, so one tick of the coordinator is a pure
  function of its state, the environment and the current time.
- Python int(x) applied to a quotient of integers truncates toward zero; it is
  embedded as Int.tdiv on a common denominator, which computes the truncation
  of the same rational number exactly.
-/

namespace NomaIQ

/-- Property values stored in a device property bag: integers and strings. -/
inductive PropVal where
  | i : Int → PropVal
  | s : String → PropVal
deriving DecidableEq

/-- A device of the external roster: a stable serial number plus a property
bag, refreshed in place by the collaborator. -/
structure Device where
  serial_number : String
  props : List (String × PropVal)
deriving DecidableEq

/-- device.get_property_value(name): lookup in the property bag, None when
absent. -/
def Device.get_property_value (d : Device) (name : String) : Option PropVal :=
  List.lookup name d.props

/-- const.py line 6. -/
def NORMAL_UPDATE_INTERVAL : Int := 30

/-- const.py line 7. -/
def TRANSITION_UPDATE_INTERVAL : Int := 2

/-- Python exceptions relevant to the coordinator: the ayla expiring-auth
signal, a generic exception with its message, and
homeassistant.helpers.update_coordinator.UpdateFailed carrying a message and
the explicit cause given by "raise ... from ex". -/
inductive PyErr where
  | aylaAuthExpiring : PyErr
  | exc : String → PyErr
  | updateFailed : String → Option PyErr → PyErr

/-- str(ex), as used in the f-string of the outer exception handler. -/
def PyErr.str : PyErr → String
  | .aylaAuthExpiring => "AylaAuthExpiringError"
  | .exc m => m
  | .updateFailed m _ => m

/-- Mutable state of NomaIQDataUpdateCoordinator: the transition set, the
intended-light-value map, the current update interval in seconds, the
last-full-update time stamp, and the last published roster (self.data,
maintained by the DataUpdateCoordinator base class). -/
structure CoordState where
  devicesInTransition : Finset String
  intendedLightStates : List (String × Int)
  updateIntervalSeconds : Int
  lastFullUpdate : Int
  data : Option (List Device)

/-- Dictionary write d[k] = v on the intended-value map. -/
def dictInsert (k : String) (v : Int) (m : List (String × Int)) :
    List (String × Int) :=
  (k, v) :: m.filter (fun q => q.1 != k)

/-- Dictionary d.pop(k, None) on the intended-value map. -/
def dictPop (k : String) (m : List (String × Int)) : List (String × Int) :=
  m.filter (fun q => q.1 != k)

/-- coordinator.py lines 46-62, NomaIQDataUpdateCoordinator.set_device_transition_state:
mark a device as in transition (optionally recording an intended power value,
and switching to the fast interval), or clear it (dropping its intended value,
and switching back to the normal interval when the set becomes empty). -/
def set_device_transition_state (st : CoordState) (device_serial : String)
    (in_transition : Bool) (intended_power : Option Int) : CoordState :=
  if in_transition then
    let st1 := { st with
      devicesInTransition := insert device_serial st.devicesInTransition }
    let st2 := match intended_power with
      | some p => { st1 with
          intendedLightStates := dictInsert device_serial p st1.intendedLightStates }
      | none => st1
    if st2.updateIntervalSeconds ≠ TRANSITION_UPDATE_INTERVAL then
      { st2 with updateIntervalSeconds := TRANSITION_UPDATE_INTERVAL }
    else st2
  else
    let st1 := { st with
      devicesInTransition := st.devicesInTransition.erase device_serial,
      intendedLightStates := dictPop device_serial st.intendedLightStates }
    if st1.devicesInTransition = ∅ ∧
        st1.updateIntervalSeconds ≠ NORMAL_UPDATE_INTERVAL then
      { st1 with updateIntervalSeconds := NORMAL_UPDATE_INTERVAL }
    else st1

/-- coordinator.py lines 64-66: membership in the transition set. -/
def is_device_in_transition (st : CoordState) (device_serial : String) : Bool :=
  device_serial ∈ st.devicesInTransition

/-- Outcome of the auth-check step: check_auth passes, or raises the expiring
signal (after which refresh_auth itself either succeeds or raises), or raises
some other exception. -/
inductive AuthOutcome where
  | ok : AuthOutcome
  | expiring : Except PyErr Unit → AuthOutcome
  | fail : PyErr → AuthOutcome

/-- Outcomes of the external calls made during one tick. -/
structure TickEnv where
  auth : AuthOutcome
  getDevices : Except PyErr (List Device)
  refresh : String → Except PyErr (List (String × PropVal))

/-- coordinator.py lines 71-77: the inner auth try/except. A non-expiring
exception from check_auth is wrapped as UpdateFailed "Failed to refresh auth"
from ex; an exception raised by refresh_auth inside the except handler
propagates unwrapped to the outer handler. -/
def authStep (a : AuthOutcome) : Except PyErr Unit :=
  match a with
  | .ok => .ok ()
  | .expiring r => r
  | .fail e => .error (.updateFailed "Failed to refresh auth" (some e))

/-- The full-update loop, coordinator.py lines 93-95: refresh every device of
the roster in order, stopping at the first exception. -/
def refreshAll (env : TickEnv) : List Device → Except PyErr (List Device)
  | [] => .ok []
  | d :: rest =>
    match env.refresh d.serial_number with
    | .error e => .error e
    | .ok props =>
      match refreshAll env rest with
      | .error e => .error e
      | .ok ds => .ok (⟨d.serial_number, props⟩ :: ds)

/-- Python membership door_status in ["opened", "closed"], where door_status is
the possibly-absent property value. -/
def doorTerminal : Option PropVal → Bool
  | some (.s v) => v == "opened" || v == "closed"
  | _ => false

/-- Python comparison current_power == intended_power, where current_power is
the possibly-absent property value and intended_power an integer. -/
def powerMatches : Option PropVal → Int → Bool
  | some (.i n), m => n == m
  | _, _ => false

/-- coordinator.py lines 107-123: the completion detector run on a tracked
device right after its per-device refresh during a transition-only update.
First the intended-value check for lights, then the terminal door-status
check; each may clear the device from the transition set. -/
def checkTransitionComplete (st : CoordState) (d : Device) : CoordState :=
  let st1 :=
    match List.lookup d.serial_number st.intendedLightStates with
    | some intended =>
      if powerMatches (d.get_property_value "power") intended then
        set_device_transition_state st d.serial_number false none
      else st
    | none => st
  if doorTerminal (d.get_property_value "door_status") then
    set_device_transition_state st1 d.serial_number false none
  else st1

/-- The transition-only loop, coordinator.py lines 98-123: walk the roster,
refresh only the devices currently in the transition set, run the completion
detector after each such refresh, and stop at the first exception while
keeping the state mutations already performed. -/
def transitionLoop (env : TickEnv) (st : CoordState) :
    List Device → CoordState × Except PyErr (List Device)
  | [] => (st, .ok [])
  | d :: rest =>
    if d.serial_number ∈ st.devicesInTransition then
      match env.refresh d.serial_number with
      | .error e => (st, .error e)
      | .ok props =>
        let d2 : Device := ⟨d.serial_number, props⟩
        let st1 := checkTransitionComplete st d2
        match transitionLoop env st1 rest with
        | (st2, .error e) => (st2, .error e)
        | (st2, .ok ds) => (st2, .ok (d2 :: ds))
    else
      match transitionLoop env st rest with
      | (st2, .error e) => (st2, .error e)
      | (st2, .ok ds) => (st2, .ok (d :: ds))

/-- The refresh-scope test of coordinator.py lines 84-87. -/
def isFullUpdate (st : CoordState) (current_time : Int) : Bool :=
  st.updateIntervalSeconds == NORMAL_UPDATE_INTERVAL
    || NORMAL_UPDATE_INTERVAL ≤ current_time - st.lastFullUpdate

/-- Body of the outer try of _async_update_data, coordinator.py lines 70-123:
auth step, roster fetch, then either the full-update branch (which sets the
last-full-update time stamp after the loop) or the transition-only branch. -/
def updateBody (st : CoordState) (env : TickEnv) (current_time : Int) :
    CoordState × Except PyErr (List Device) :=
  match authStep env.auth with
  | .error e => (st, .error e)
  | .ok _ =>
    match env.getDevices with
    | .error e => (st, .error e)
    | .ok devices =>
      if isFullUpdate st current_time then
        match refreshAll env devices with
        | .error e => (st, .error e)
        | .ok ds => ({ st with lastFullUpdate := current_time }, .ok ds)
      else
        transitionLoop env st devices

/-- coordinator.py lines 68-128, _async_update_data: the outer try/except
wraps any exception of the body into a single UpdateFailed whose cause is the
escaping exception; on success the refreshed roster is returned. -/
def _async_update_data (st : CoordState) (env : TickEnv) (current_time : Int) :
    CoordState × Except PyErr (List Device) :=
  match updateBody st env current_time with
  | (st1, .error e) =>
    (st1, .error (.updateFailed ("Exception on getting states: " ++ e.str) (some e)))
  | (st1, .ok ds) => (st1, .ok ds)

/-- Modelled from the spec: the publication step performed by the external
DataUpdateCoordinator base class around _async_update_data, which is not part
of this repository. On success the returned roster is published as self.data;
on UpdateFailed the previous self.data is kept and a single update-failed
notification (the second component) is surfaced to subscribers. -/
def coordinatorTick (st : CoordState) (env : TickEnv) (current_time : Int) :
    CoordState × Option PyErr :=
  match _async_update_data st env current_time with
  | (st1, .ok ds) => ({ st1 with data := some ds }, none)
  | (st1, .error e) => (st1, some e)

/-- Coordinator state as built by NomaIQDataUpdateCoordinator.__init__
(coordinator.py lines 27-45), with the update interval passed by
async_setup_entry (__init__.py line 56): empty transition set, empty intended
map, normal interval, zero time stamp, nothing published yet. -/
def initState : CoordState :=
  { devicesInTransition := ∅
    intendedLightStates := []
    updateIntervalSeconds := NORMAL_UPDATE_INTERVAL
    lastFullUpdate := 0
    data := none }

/-- Reachable coordinator states: the initial state, closed under marking,
clearing, and whole ticks. -/
inductive Reachable : CoordState → Prop
  | init : Reachable initState
  | step (st : CoordState) (serial : String) (b : Bool) (p : Option Int) :
      Reachable st → Reachable (set_device_transition_state st serial b p)
  | tick (st : CoordState) (env : TickEnv) (t : Int) :
      Reachable st → Reachable (coordinatorTick st env t).1

/-- The completion condition of the detector, in terms of the intended map of
a given state and the refreshed properties of a device. -/
def CompletionCond (st : CoordState) (d : Device) : Prop :=
  (∃ v, List.lookup d.serial_number st.intendedLightStates = some v ∧
      d.get_property_value "power" = some (PropVal.i v)) ∨
    (d.get_property_value "door_status" = some (PropVal.s "opened") ∨
      d.get_property_value "door_status" = some (PropVal.s "closed"))

/-- The transition-set/interval invariant of the specification. -/
def TransitionInvariant (st : CoordState) : Prop :=
  (st.devicesInTransition ≠ ∅ →
    st.updateIntervalSeconds = TRANSITION_UPDATE_INTERVAL) ∧
  (st.devicesInTransition = ∅ →
    st.updateIntervalSeconds = NORMAL_UPDATE_INTERVAL)

/-! ### The light entity (light.py) -/

/-- Python int(a / b) for integers a, b: the float quotient truncated toward
zero, embedded exactly as integer division truncating toward zero. -/
def pyInt (a b : Int) : Int := Int.tdiv a b

/-- Python int(q) on a rational: truncation toward zero. -/
def pyTruncRat (q : ℚ) : Int := q.num.tdiv q.den

/-- light.py line 94: int(val * 255 / 100), the stored 0-100 brightness
exposed on the 0-255 scale. -/
def brightnessFromStored (v : Int) : Int := pyInt (v * 255) 100

/-- light.py line 152: int(kwargs brightness * 100 / 255), the exposed 0-255
brightness written back on the stored 0-100 scale. -/
def brightnessToStored (b : Int) : Int := pyInt (b * 100) 255

/-- light.py line 105: int(153 + (100 - val) * (500 - 153) / 100), the stored
0-100 color temperature exposed in mireds, written over the common
denominator 100. -/
def colorTempFromStored (v : Int) : Int := pyInt (15300 + (100 - v) * 347) 100

/-- light.py line 161: int(100 - (mired - 153) * 100 / (500 - 153)), the mired
value written back on the stored 0-100 scale, written over the common
denominator 347. -/
def colorTempToStored (m : Int) : Int := pyInt (34700 - (m - 153) * 100) 347

/-- Result of reading the is_on property: the asserted optimistic boolean, the
confirmed power property value, or None (no device resolved, or property
absent). -/
inductive LightReading where
  | absent : LightReading
  | ofBool : Bool → LightReading
  | ofProp : PropVal → LightReading
deriving DecidableEq

/-- Optimistic fields of NomaIQLightEntity (light.py lines 69-72) plus the
serial number of the wrapped device; the confirmed roster is read from the
coordinator at each property access. -/
structure LightState where
  serial : String
  optimistic_is_on : Option Bool
  optimistic_brightness : Option Int
  optimistic_color_temp : Option Int
  optimistic_hs_color : Option (ℚ × ℚ)
deriving DecidableEq

/-- light.py lines 74-78, _get_device: re-resolve the device by serial in the
published roster. -/
def _get_device (roster : List Device) (serial : String) : Option Device :=
  roster.find? (fun d => d.serial_number == serial)

/-- The confirmed-roster fallback of the is_on property (light.py line 83):
Python "device and device.get_property_value(power)" is None when the device
is absent, and otherwise the possibly-absent power value. -/
def is_on_confirmed (roster : List Device) (serial : String) : LightReading :=
  match _get_device roster serial with
  | none => .absent
  | some d =>
    match d.get_property_value "power" with
    | none => .absent
    | some v => .ofProp v

/-- light.py lines 80-84, the is_on property. -/
def is_on (ls : LightState) (roster : List Device) : LightReading :=
  match ls.optimistic_is_on with
  | some b => .ofBool b
  | none => is_on_confirmed roster ls.serial

/-- The confirmed-roster fallback of the brightness property (light.py lines
90-95). -/
def brightness_confirmed (roster : List Device) (serial : String) : Option Int :=
  match _get_device roster serial with
  | none => none
  | some d =>
    match d.get_property_value "brightness" with
    | some (.i v) => some (brightnessFromStored v)
    | _ => none

/-- light.py lines 86-95, the brightness property. -/
def brightness (ls : LightState) (roster : List Device) : Option Int :=
  match ls.optimistic_brightness with
  | some b => some b
  | none => brightness_confirmed roster ls.serial

/-- The confirmed-roster fallback of the color_temp property (light.py lines
101-106): only meaningful while the confirmed mode is "white". -/
def color_temp_confirmed (roster : List Device) (serial : String) : Option Int :=
  match _get_device roster serial with
  | none => none
  | some d =>
    if d.get_property_value "mode" = some (.s "white") then
      match d.get_property_value "color_temp" with
      | some (.i v) => some (colorTempFromStored v)
      | _ => none
    else none

/-- light.py lines 97-106, the color_temp property. -/
def color_temp (ls : LightState) (roster : List Device) : Option Int :=
  match ls.optimistic_color_temp with
  | some m => some m
  | none => color_temp_confirmed roster ls.serial

/-- The confirmed-roster fallback of the hs_color property (light.py lines
112-118): only meaningful while the confirmed mode is "colour"; the hue is
reduced modulo 360 by the Python % operator, whose result on a positive
modulus lies in [0, 360). -/
def hs_color_confirmed (roster : List Device) (serial : String) :
    Option (ℚ × ℚ) :=
  match _get_device roster serial with
  | none => none
  | some d =>
    if d.get_property_value "mode" = some (.s "colour") then
      match d.get_property_value "color_select",
            d.get_property_value "color_saturation" with
      | some (.i hue), some (.i sat) => some (((hue % 360 : Int) : ℚ), (sat : ℚ))
      | _, _ => none
    else none

/-- light.py lines 108-118, the hs_color property; a stored optimistic tuple
is always truthy in Python, so it is returned whenever present. -/
def hs_color (ls : LightState) (roster : List Device) : Option (ℚ × ℚ) :=
  match ls.optimistic_hs_color with
  | some p => some p
  | none => hs_color_confirmed roster ls.serial

/-- Keyword arguments of async_turn_on. -/
structure TurnOnKwargs where
  brightness : Option Int
  color_temp : Option Int
  hs_color : Option (ℚ × ℚ)

/-- light.py lines 140-147: the optimistic assertion phase of async_turn_on,
performed before any write is attempted. -/
def turnOnAssert (ls : LightState) (kw : TurnOnKwargs) : LightState :=
  { ls with
    optimistic_is_on := some true
    optimistic_brightness :=
      match kw.brightness with
      | some b => some b
      | none => ls.optimistic_brightness
    optimistic_color_temp :=
      match kw.color_temp with
      | some m => some m
      | none => ls.optimistic_color_temp
    optimistic_hs_color :=
      match kw.hs_color with
      | some p => some p
      | none => ls.optimistic_hs_color }

/-- light.py lines 149-162: the property writes issued by the try block of
async_turn_on, in order, with the unit conversions the code applies. -/
def turnOnWrites (kw : TurnOnKwargs) : List (String × PropVal) :=
  [("power", .i 1)]
    ++ (match kw.brightness with
        | some b => [("brightness", .i (brightnessToStored b))]
        | none => [])
    ++ (match kw.hs_color with
        | some (hue, sat) =>
          [("mode", .s "colour"), ("color_select", .i (pyTruncRat hue)),
            ("color_saturation", .i (pyTruncRat sat))]
        | none =>
          match kw.color_temp with
          | some m => [("mode", .s "white"), ("color_temp", .i (colorTempToStored m))]
          | none => [])

/-- light.py lines 135-166, async_turn_on, as a state transformer: the
optimistic assertions always happen; when any write of the try block raises
(commitOk = false), the except handler discards only the optimistic on-state. -/
def async_turn_on (ls : LightState) (kw : TurnOnKwargs) (commitOk : Bool) :
    LightState :=
  let ls1 := turnOnAssert ls kw
  if commitOk then ls1 else { ls1 with optimistic_is_on := none }

/-- light.py lines 170-182, async_turn_off: asserts the optimistic off-state;
when the power write raises, the except handler discards the assertion. -/
def async_turn_off (ls : LightState) (commitOk : Bool) : LightState :=
  let ls1 := { ls with optimistic_is_on := some false }
  if commitOk then ls1 else { ls1 with optimistic_is_on := none }

/-- light.py lines 184-190, async_update: clear every optimistic value, so
reads fall through to the confirmed roster. -/
def light_async_update (ls : LightState) : LightState :=
  { ls with
    optimistic_is_on := none
    optimistic_brightness := none
    optimistic_color_temp := none
    optimistic_hs_color := none }

/-! ### Invariant preservation lemmas -/

theorem transitionInvariant_initState : TransitionInvariant initState :=
  ⟨fun hne => absurd rfl hne, fun _ => rfl⟩

/-- Characterization of a mark call: the serial is inserted, the intended map
is extended when an intended value is given, and the interval always ends up
at the fast value. -/
theorem set_true_eq (st : CoordState) (s : String) (p : Option Int) :
    set_device_transition_state st s true p =
      { st with
        devicesInTransition := insert s st.devicesInTransition
        intendedLightStates :=
          match p with
          | some v => dictInsert s v st.intendedLightStates
          | none => st.intendedLightStates
        updateIntervalSeconds := TRANSITION_UPDATE_INTERVAL } := by
  unfold set_device_transition_state
  split
  · cases p with
    | none =>
      dsimp only
      split
      · rfl
      · next hint => rw [show st.updateIntervalSeconds = TRANSITION_UPDATE_INTERVAL from not_not.mp hint]
    | some v =>
      dsimp only
      split
      · rfl
      · next hint => rw [show st.updateIntervalSeconds = TRANSITION_UPDATE_INTERVAL from not_not.mp hint]
  · next hfalse => exact absurd rfl hfalse

/-- Characterization of a clear call: the serial is erased from the set and
popped from the intended map, and the interval ends up normal exactly when the
set has become empty. -/
theorem set_false_eq (st : CoordState) (s : String) (p : Option Int) :
    set_device_transition_state st s false p =
      { st with
        devicesInTransition := st.devicesInTransition.erase s
        intendedLightStates := dictPop s st.intendedLightStates
        updateIntervalSeconds :=
          if st.devicesInTransition.erase s = ∅ then NORMAL_UPDATE_INTERVAL
          else st.updateIntervalSeconds } := by
  unfold set_device_transition_state
  split
  · next habs => exact absurd habs (by simp)
  · dsimp only
    split
    · next hcond =>
      rw [if_pos hcond.1]
    · next hcond =>
      by_cases he : st.devicesInTransition.erase s = ∅
      · rw [if_pos he,
          show st.updateIntervalSeconds = NORMAL_UPDATE_INTERVAL from
            not_not.mp (fun hi => hcond ⟨he, hi⟩)]
      · rw [if_neg he]

theorem transitionInvariant_set (st : CoordState) (s : String) (b : Bool)
    (p : Option Int) (h : TransitionInvariant st) :
    TransitionInvariant (set_device_transition_state st s b p) := by
  obtain ⟨h1, h2⟩ := h
  cases b with
  | true =>
    rw [set_true_eq]
    exact ⟨fun _ => rfl, fun he => absurd he (Finset.insert_ne_empty _ _)⟩
  | false =>
    rw [set_false_eq]
    by_cases he : st.devicesInTransition.erase s = ∅
    · exact ⟨fun hne => absurd he hne, fun _ => by rw [if_pos he]⟩
    · refine ⟨fun _ => ?_, fun he2 => absurd he2 he⟩
      rw [if_neg he]
      exact h1 (fun h0 => he (by rw [h0, Finset.erase_empty]))

theorem transitionInvariant_check (st : CoordState) (d : Device)
    (h : TransitionInvariant st) :
    TransitionInvariant (checkTransitionComplete st d) := by
  unfold checkTransitionComplete
  dsimp only
  split
  · split
    · split
      · exact transitionInvariant_set _ _ _ _ (transitionInvariant_set _ _ _ _ h)
      · exact transitionInvariant_set _ _ _ _ h
    · exact transitionInvariant_set _ _ _ _ h
  · split
    · split
      · exact transitionInvariant_set _ _ _ _ h
      · exact h
    · exact h

theorem transitionInvariant_loop (env : TickEnv) (devices : List Device) :
    ∀ st : CoordState, TransitionInvariant st →
      TransitionInvariant (transitionLoop env st devices).1 := by
  induction devices with
  | nil => intro st h; exact h
  | cons d rest ih =>
    intro st h
    unfold transitionLoop
    dsimp only
    split
    · cases hr : env.refresh d.serial_number with
      | error e => exact h
      | ok props =>
        dsimp only
        have h1 := transitionInvariant_check st ⟨d.serial_number, props⟩ h
        have h2 := ih _ h1
        cases hl : transitionLoop env (checkTransitionComplete st ⟨d.serial_number, props⟩) rest with
        | mk st2 res =>
          rw [hl] at h2
          cases res <;> exact h2
    · have h2 := ih st h
      cases hl : transitionLoop env st rest with
      | mk st2 res =>
        rw [hl] at h2
        cases res <;> exact h2

theorem transitionInvariant_updateBody (st : CoordState) (env : TickEnv)
    (t : Int) (h : TransitionInvariant st) :
    TransitionInvariant (updateBody st env t).1 := by
  unfold updateBody
  cases authStep env.auth with
  | error e => exact h
  | ok u =>
    dsimp only
    cases env.getDevices with
    | error e => exact h
    | ok devices =>
      dsimp only
      split
      · cases refreshAll env devices with
        | error e => exact h
        | ok ds => exact ⟨h.1, h.2⟩
      · exact transitionInvariant_loop env devices st h

theorem transitionInvariant_update (st : CoordState) (env : TickEnv) (t : Int)
    (h : TransitionInvariant st) :
    TransitionInvariant (_async_update_data st env t).1 := by
  unfold _async_update_data
  have h1 := transitionInvariant_updateBody st env t h
  cases hb : updateBody st env t with
  | mk st1 res =>
    rw [hb] at h1
    cases res <;> exact h1

theorem transitionInvariant_tick (st : CoordState) (env : TickEnv) (t : Int)
    (h : TransitionInvariant st) :
    TransitionInvariant (coordinatorTick st env t).1 := by
  unfold coordinatorTick
  have h1 := transitionInvariant_update st env t h
  cases hb : _async_update_data st env t with
  | mk st1 res =>
    rw [hb] at h1
    cases res <;> exact h1

/-- C1: in every reachable coordinator state (the initial state, closed under
set_device_transition_state calls and whole ticks), a non-empty transition set
forces the fast TRANSITION_UPDATE_INTERVAL (2 s) and an empty transition set
forces the NORMAL_UPDATE_INTERVAL (30 s). -/
theorem reachable_transition_invariant (st : CoordState) (h : Reachable st) :
    TransitionInvariant st := by
  induction h with
  | init => exact transitionInvariant_initState
  | step st s b p _ ih => exact transitionInvariant_set st s b p ih
  | tick st env t _ ih => exact transitionInvariant_tick st env t ih

/-- Witness for C1: the invariant, evaluated at the concrete reachable state
obtained by marking device A for transition from the initial state. -/
theorem reachable_transition_invariant_witness :
    TransitionInvariant (set_device_transition_state initState "A" true (some 1)) :=
  reachable_transition_invariant _ (Reachable.step initState "A" true (some 1) Reachable.init)

/-! ### Field preservation lemmas: the transition machinery never touches the
last-full-update time stamp nor the published roster -/

theorem set_preserves (st : CoordState) (s : String) (b : Bool) (p : Option Int) :
    (set_device_transition_state st s b p).lastFullUpdate = st.lastFullUpdate ∧
      (set_device_transition_state st s b p).data = st.data := by
  cases b
  · rw [set_false_eq]; exact ⟨rfl, rfl⟩
  · rw [set_true_eq]; exact ⟨rfl, rfl⟩

theorem check_preserves (st : CoordState) (d : Device) :
    (checkTransitionComplete st d).lastFullUpdate = st.lastFullUpdate ∧
      (checkTransitionComplete st d).data = st.data := by
  unfold checkTransitionComplete
  dsimp only
  split
  · split
    · split
      · constructor
        · rw [(set_preserves _ _ _ _).1, (set_preserves _ _ _ _).1]
        · rw [(set_preserves _ _ _ _).2, (set_preserves _ _ _ _).2]
      · exact set_preserves _ _ _ _
    · exact set_preserves _ _ _ _
  · split
    · split
      · exact set_preserves _ _ _ _
      · exact ⟨rfl, rfl⟩
    · exact ⟨rfl, rfl⟩

theorem transitionLoop_preserves (env : TickEnv) (devices : List Device) :
    ∀ st : CoordState,
      (transitionLoop env st devices).1.lastFullUpdate = st.lastFullUpdate ∧
        (transitionLoop env st devices).1.data = st.data := by
  induction devices with
  | nil => intro st; exact ⟨rfl, rfl⟩
  | cons d rest ih =>
    intro st
    unfold transitionLoop
    dsimp only
    split
    · cases hr : env.refresh d.serial_number with
      | error e => exact ⟨rfl, rfl⟩
      | ok props =>
        dsimp only
        have hc := check_preserves st ⟨d.serial_number, props⟩
        have h2 := ih (checkTransitionComplete st ⟨d.serial_number, props⟩)
        cases hl : transitionLoop env (checkTransitionComplete st ⟨d.serial_number, props⟩) rest with
        | mk st2 res =>
          rw [hl] at h2
          cases res <;> exact ⟨h2.1.trans hc.1, h2.2.trans hc.2⟩
    · have h2 := ih st
      cases hl : transitionLoop env st rest with
      | mk st2 res =>
        rw [hl] at h2
        cases res <;> exact h2

theorem updateBody_data (st : CoordState) (env : TickEnv) (t : Int) :
    (updateBody st env t).1.data = st.data := by
  unfold updateBody
  cases authStep env.auth with
  | error e => rfl
  | ok u =>
    dsimp only
    cases env.getDevices with
    | error e => rfl
    | ok devices =>
      dsimp only
      split
      · cases refreshAll env devices with
        | error e => rfl
        | ok ds => rfl
      · exact (transitionLoop_preserves env devices st).2

theorem update_data_preserved (st : CoordState) (env : TickEnv) (t : Int) :
    (_async_update_data st env t).1.data = st.data := by
  unfold _async_update_data
  have h := updateBody_data st env t
  cases hb : updateBody st env t with
  | mk st1 res =>
    rw [hb] at h
    cases res <;> exact h

/-! ### Refresh-scope selection (C2) -/

/-- The boolean test of coordinator.py lines 84-87, as a proposition. -/
theorem isFullUpdate_iff (st : CoordState) (t : Int) :
    isFullUpdate st t = true ↔
      (st.updateIntervalSeconds = NORMAL_UPDATE_INTERVAL ∨
        NORMAL_UPDATE_INTERVAL ≤ t - st.lastFullUpdate) := by
  simp [isFullUpdate]

/-- In the full-update loop every roster device is individually refreshed and
its refreshed image appears in the returned roster. -/
theorem refreshAll_mem (env : TickEnv) (devices ds : List Device)
    (h : refreshAll env devices = .ok ds) :
    ∀ d ∈ devices, ∃ props, env.refresh d.serial_number = .ok props ∧
      Device.mk d.serial_number props ∈ ds := by
  induction devices generalizing ds with
  | nil => intro d hd; cases hd
  | cons a rest ih =>
    intro d hd
    unfold refreshAll at h
    cases hr : env.refresh a.serial_number with
    | error e => rw [hr] at h; cases h
    | ok props =>
      rw [hr] at h
      dsimp only at h
      cases hrest : refreshAll env rest with
      | error e => rw [hrest] at h; cases h
      | ok ds0 =>
        rw [hrest] at h
        dsimp only at h
        cases h
        cases hd with
        | head => exact ⟨props, hr, List.mem_cons_self _ _⟩
        | tail _ hmem =>
          obtain ⟨p2, hp2, hm2⟩ := ih ds0 hrest d hmem
          exact ⟨p2, hp2, List.mem_cons_of_mem _ hm2⟩

/-- C2: on a successful tick, the full refresh (every device of the fetched
roster individually refreshed) is performed exactly when the update interval
equals the normal period or at least the normal period has elapsed since the
last full update; a full refresh stamps the last-full-update time with the
tick time, and a transition-only refresh leaves it unchanged. -/
theorem refresh_scope_selection (st st' : CoordState) (env : TickEnv) (t : Int)
    (devices ds : List Device)
    (hdev : env.getDevices = .ok devices)
    (h : _async_update_data st env t = (st', .ok ds)) :
    ((st.updateIntervalSeconds = NORMAL_UPDATE_INTERVAL ∨
        NORMAL_UPDATE_INTERVAL ≤ t - st.lastFullUpdate) →
      refreshAll env devices = .ok ds ∧ st'.lastFullUpdate = t ∧
        ∀ d ∈ devices, ∃ props, env.refresh d.serial_number = .ok props ∧
          Device.mk d.serial_number props ∈ ds) ∧
    (¬(st.updateIntervalSeconds = NORMAL_UPDATE_INTERVAL ∨
        NORMAL_UPDATE_INTERVAL ≤ t - st.lastFullUpdate) →
      (transitionLoop env st devices).2 = .ok ds ∧
        st'.lastFullUpdate = st.lastFullUpdate) := by
  unfold _async_update_data updateBody at h
  cases ha : authStep env.auth with
  | error e => rw [ha] at h; cases h
  | ok u =>
    rw [ha, hdev] at h
    dsimp only at h
    by_cases hf : isFullUpdate st t = true
    · rw [if_pos hf] at h
      refine ⟨fun _ => ?_, fun hc => absurd ((isFullUpdate_iff st t).mp hf) hc⟩
      cases hra : refreshAll env devices with
      | error e => rw [hra] at h; cases h
      | ok ds0 =>
        rw [hra] at h
        dsimp only at h
        injection h with h1 h2
        injection h2 with h3
        subst h1
        subst h3
        exact ⟨rfl, rfl, refreshAll_mem env devices ds0 hra⟩
    · rw [if_neg hf] at h
      refine ⟨fun hc => absurd ((isFullUpdate_iff st t).mpr hc) hf, fun _ => ?_⟩
      have hp := transitionLoop_preserves env devices st
      cases hl : transitionLoop env st devices with
      | mk st2 res =>
        rw [hl] at h hp
        cases res with
        | error e => cases h
        | ok ds0 =>
          dsimp only at h
          injection h with h1 h2
          injection h2 with h3
          subst h1
          subst h3
          exact ⟨rfl, hp.1⟩

/-- Witness for C2: a concrete successful full-refresh tick over an empty
roster at time 7 from the initial state. -/
theorem refresh_scope_selection_witness :
    refreshAll { auth := .ok, getDevices := .ok [], refresh := fun _ => .ok [] } [] = .ok ([] : List Device) ∧
      ({ initState with lastFullUpdate := 7 } : CoordState).lastFullUpdate = 7 ∧
      ∀ d ∈ ([] : List Device), ∃ props,
        TickEnv.refresh { auth := .ok, getDevices := .ok [], refresh := fun _ => .ok [] } d.serial_number = .ok props ∧
          Device.mk d.serial_number props ∈ ([] : List Device) :=
  (refresh_scope_selection initState { initState with lastFullUpdate := 7 }
    { auth := .ok, getDevices := .ok [], refresh := fun _ => .ok [] } 7 [] []
    rfl rfl).1 (Or.inl rfl)

/-! ### Completion detection (C3) -/

theorem powerMatches_iff (o : Option PropVal) (v : Int) :
    powerMatches o v = true ↔ o = some (PropVal.i v) := by
  cases o with
  | none => simp [powerMatches]
  | some pv =>
    cases pv with
    | i n => simp [powerMatches]
    | s w => simp [powerMatches]

theorem doorTerminal_iff (o : Option PropVal) :
    doorTerminal o = true ↔
      (o = some (PropVal.s "opened") ∨ o = some (PropVal.s "closed")) := by
  cases o with
  | none => simp [doorTerminal]
  | some pv =>
    cases pv with
    | i n => simp [doorTerminal]
    | s w => simp [doorTerminal]

theorem set_false_not_mem (st : CoordState) (s : String) (p : Option Int) :
    s ∉ (set_device_transition_state st s false p).devicesInTransition := by
  rw [set_false_eq]
  exact Finset.not_mem_erase _ _

/-- C3: the completion detector run after the per-device refresh of a tracked
device clears it from the transition set exactly when it has a registered
intended value matched by the confirmed power property, or its confirmed
door_status is the terminal "opened" or "closed"; in particular a mismatching
power value or a non-terminal status such as "opening" leaves it tracked. -/
theorem completion_detection (st : CoordState) (d : Device)
    (h : d.serial_number ∈ st.devicesInTransition) :
    (d.serial_number ∉ (checkTransitionComplete st d).devicesInTransition) ↔
      ((∃ v, List.lookup d.serial_number st.intendedLightStates = some v ∧
          d.get_property_value "power" = some (PropVal.i v)) ∨
        (d.get_property_value "door_status" = some (PropVal.s "opened") ∨
          d.get_property_value "door_status" = some (PropVal.s "closed"))) := by
  unfold checkTransitionComplete
  dsimp only
  by_cases hd : doorTerminal (d.get_property_value "door_status") = true
  · rw [if_pos hd]
    exact iff_of_true (set_false_not_mem _ _ _) (Or.inr ((doorTerminal_iff _).mp hd))
  · rw [if_neg hd]
    cases hl : List.lookup d.serial_number st.intendedLightStates with
    | none =>
      dsimp only
      refine iff_of_false (fun hn => hn h) ?_
      rintro (⟨v, hlk, _⟩ | hdoor)
      · cases hlk
      · exact hd ((doorTerminal_iff _).mpr hdoor)
    | some v =>
      dsimp only
      by_cases hp : powerMatches (d.get_property_value "power") v = true
      · rw [if_pos hp]
        exact iff_of_true (set_false_not_mem _ _ _)
          (Or.inl ⟨v, rfl, (powerMatches_iff _ _).mp hp⟩)
      · rw [if_neg hp]
        refine iff_of_false (fun hn => hn h) ?_
        rintro (⟨w, hlk, hpow⟩ | hdoor)
        · injection hlk with hw
          subst hw
          exact hp ((powerMatches_iff _ _).mpr hpow)
        · exact hd ((doorTerminal_iff _).mpr hdoor)

/-- Witness for C3: a concrete tracked device with intended power 1 whose
refreshed power reads 1 is cleared by the detector. -/
theorem completion_detection_witness :
    "A" ∉ (checkTransitionComplete
      { devicesInTransition := {"A"}
        intendedLightStates := [("A", 1)]
        updateIntervalSeconds := TRANSITION_UPDATE_INTERVAL
        lastFullUpdate := 0
        data := none }
      ⟨"A", [("power", PropVal.i 1)]⟩).devicesInTransition :=
  (completion_detection
    { devicesInTransition := {"A"}
      intendedLightStates := [("A", 1)]
      updateIntervalSeconds := TRANSITION_UPDATE_INTERVAL
      lastFullUpdate := 0
      data := none }
    ⟨"A", [("power", PropVal.i 1)]⟩ (by decide)).mpr
    (Or.inl ⟨1, rfl, rfl⟩)

/-! ### Error wrapping and roster preservation (C4) -/

/-- C4: whenever a tick fails, the escaping notification is a single
UpdateFailed value carrying the triggering cause, and the previously published
roster self.data is untouched; in particular a roster-fetch failure after a
passing auth step fails the tick with an UpdateFailed caused by exactly that
fetch error, and a failed publication step keeps the previous roster visible. -/
theorem tick_error_wrapping (st : CoordState) (env : TickEnv) (t : Int) :
    (∀ st' e, _async_update_data st env t = (st', .error e) →
      (∃ msg c, e = PyErr.updateFailed msg (some c)) ∧ st'.data = st.data) ∧
    (∀ err, authStep env.auth = .ok () → env.getDevices = .error err →
      ∃ st' msg, _async_update_data st env t =
        (st', .error (PyErr.updateFailed msg (some err)))) ∧
    (∀ st2 e, coordinatorTick st env t = (st2, some e) → st2.data = st.data) := by
  refine ⟨?_, ?_, ?_⟩
  · intro st' e h
    unfold _async_update_data at h
    have hd := updateBody_data st env t
    cases hb : updateBody st env t with
    | mk st1 res =>
      rw [hb] at h hd
      cases res with
      | ok ds =>
        dsimp only at h
        injection h with h1 h2
        cases h2
      | error e0 =>
        dsimp only at h
        injection h with h1 h2
        injection h2 with h3
        subst h1
        subst h3
        exact ⟨⟨_, _, rfl⟩, hd⟩
  · intro err ha hg
    unfold _async_update_data updateBody
    rw [ha, hg]
    exact ⟨st, _, rfl⟩
  · intro st2 e h
    unfold coordinatorTick at h
    have hd := update_data_preserved st env t
    cases hb : _async_update_data st env t with
    | mk st1 res =>
      rw [hb] at h hd
      cases res with
      | ok ds =>
        dsimp only at h
        injection h with h1 h2
        cases h2
      | error e0 =>
        dsimp only at h
        injection h with h1 h2
        subst h1
        exact hd

/-- Witness for C4: a concrete tick whose roster fetch raises; the result is
one UpdateFailed caused by that error. -/
theorem tick_error_wrapping_witness :
    ∃ st' msg,
      _async_update_data initState
        { auth := .ok, getDevices := .error (.exc "boom"), refresh := fun _ => .ok [] } 0 =
      (st', .error (PyErr.updateFailed msg (some (.exc "boom")))) :=
  (tick_error_wrapping initState
    { auth := .ok, getDevices := .error (.exc "boom"), refresh := fun _ => .ok [] } 0).2.1
    (.exc "boom") rfl rfl

/-! ### Detector invocation scope (C5) -/

theorem check_clears (st : CoordState) (d : Device) (hcond : CompletionCond st d) :
    d.serial_number ∉ (checkTransitionComplete st d).devicesInTransition := by
  unfold checkTransitionComplete
  dsimp only
  by_cases hd : doorTerminal (d.get_property_value "door_status") = true
  · rw [if_pos hd]
    exact set_false_not_mem _ _ _
  · rw [if_neg hd]
    rcases hcond with ⟨v, hl, hp⟩ | hdoor
    · rw [hl]
      dsimp only
      rw [if_pos ((powerMatches_iff _ _).mpr hp)]
      exact set_false_not_mem _ _ _
    · exact absurd ((doorTerminal_iff _).mpr hdoor) hd

theorem set_false_subset (st : CoordState) (s : String) (p : Option Int) :
    (set_device_transition_state st s false p).devicesInTransition ⊆
      st.devicesInTransition := by
  rw [set_false_eq]
  exact Finset.erase_subset _ _

theorem check_subset (st : CoordState) (d : Device) :
    (checkTransitionComplete st d).devicesInTransition ⊆
      st.devicesInTransition := by
  unfold checkTransitionComplete
  dsimp only
  split
  · split
    · split
      · exact (set_false_subset _ _ _).trans (set_false_subset _ _ _)
      · exact set_false_subset _ _ _
    · exact set_false_subset _ _ _
  · split
    · split
      · exact set_false_subset _ _ _
      · exact Finset.Subset.refl _
    · exact Finset.Subset.refl _

theorem transitionLoop_subset (env : TickEnv) (devices : List Device) :
    ∀ st : CoordState,
      (transitionLoop env st devices).1.devicesInTransition ⊆
        st.devicesInTransition := by
  induction devices with
  | nil => intro st; exact Finset.Subset.refl _
  | cons d rest ih =>
    intro st
    unfold transitionLoop
    dsimp only
    split
    · cases hr : env.refresh d.serial_number with
      | error e => exact Finset.Subset.refl _
      | ok props =>
        dsimp only
        have h2 := ih (checkTransitionComplete st ⟨d.serial_number, props⟩)
        have hc := check_subset st ⟨d.serial_number, props⟩
        cases hl : transitionLoop env (checkTransitionComplete st ⟨d.serial_number, props⟩) rest with
        | mk st2 res =>
          rw [hl] at h2
          cases res <;> exact h2.trans hc
    · have h2 := ih st
      cases hl : transitionLoop env st rest with
      | mk st2 res =>
        rw [hl] at h2
        cases res <;> exact h2

theorem lookup_dictPop (k s : String) (m : List (String × Int)) (h : k ≠ s) :
    List.lookup k (dictPop s m) = List.lookup k m := by
  induction m with
  | nil => rfl
  | cons a rest ih =>
    obtain ⟨a1, a2⟩ := a
    by_cases ha : a1 = s
    · subst ha
      have hk : (k == a1) = false := beq_eq_false_iff_ne.mpr h
      simp only [dictPop, List.filter_cons] at ih ⊢
      simp only [bne_self_eq_false, if_false, Bool.false_eq_true]
      rw [ih]
      simp [List.lookup, hk]
    · have hne : ((a1, a2).1 != s) = true := by simp [ha]
      simp only [dictPop, List.filter_cons, hne, if_true] at ih ⊢
      by_cases hk : (k == a1) = true <;> simp [List.lookup, hk, ih]

theorem set_false_preserve_ne (st : CoordState) (s k : String) (p : Option Int)
    (h : k ≠ s) :
    (k ∈ (set_device_transition_state st s false p).devicesInTransition ↔
        k ∈ st.devicesInTransition) ∧
      List.lookup k (set_device_transition_state st s false p).intendedLightStates =
        List.lookup k st.intendedLightStates := by
  rw [set_false_eq]
  refine ⟨?_, lookup_dictPop k s _ h⟩
  constructor
  · exact fun hm => (Finset.mem_erase.mp hm).2
  · exact fun hm => Finset.mem_erase.mpr ⟨h, hm⟩

theorem check_preserve_ne (st : CoordState) (d : Device) (k : String)
    (h : k ≠ d.serial_number) :
    (k ∈ (checkTransitionComplete st d).devicesInTransition ↔
        k ∈ st.devicesInTransition) ∧
      List.lookup k (checkTransitionComplete st d).intendedLightStates =
        List.lookup k st.intendedLightStates := by
  unfold checkTransitionComplete
  dsimp only
  split
  · split
    · split
      · have h1 := set_false_preserve_ne st d.serial_number k none h
        have h2 := set_false_preserve_ne
          (set_device_transition_state st d.serial_number false none)
          d.serial_number k none h
        exact ⟨h2.1.trans h1.1, h2.2.trans h1.2⟩
      · exact set_false_preserve_ne st d.serial_number k none h
    · exact set_false_preserve_ne st d.serial_number k none h
  · split
    · split
      · exact set_false_preserve_ne st d.serial_number k none h
      · exact ⟨Iff.rfl, rfl⟩
    · exact ⟨Iff.rfl, rfl⟩

theorem lookup_dictPop_self (s : String) (m : List (String × Int)) :
    List.lookup s (dictPop s m) = none := by
  induction m with
  | nil => rfl
  | cons a rest ih =>
    obtain ⟨a1, a2⟩ := a
    by_cases ha : a1 = s
    · subst ha
      simp only [dictPop, List.filter_cons, bne_self_eq_false, Bool.false_eq_true,
        if_false] at ih ⊢
      exact ih
    · have hne : ((a1, a2).1 != s) = true := by simp [ha]
      have hk : (s == a1) = false := beq_eq_false_iff_ne.mpr (Ne.symm ha)
      simp only [dictPop, List.filter_cons, hne, if_true] at ih ⊢
      simp [List.lookup, hk, ih]

theorem lookup_dictPop_none (k s : String) (m : List (String × Int))
    (h : List.lookup k m = none) : List.lookup k (dictPop s m) = none := by
  by_cases hks : k = s
  · subst hks
    exact lookup_dictPop_self k m
  · rw [lookup_dictPop k s m hks]
    exact h

theorem set_false_intended (st : CoordState) (s : String) (p : Option Int) :
    (set_device_transition_state st s false p).intendedLightStates =
      dictPop s st.intendedLightStates := by
  rw [set_false_eq]

theorem check_clears_map (st : CoordState) (d : Device)
    (hcond : CompletionCond st d) :
    List.lookup d.serial_number
      (checkTransitionComplete st d).intendedLightStates = none := by
  unfold checkTransitionComplete
  dsimp only
  by_cases hd : doorTerminal (d.get_property_value "door_status") = true
  · rw [if_pos hd, set_false_intended]
    exact lookup_dictPop_self _ _
  · rw [if_neg hd]
    rcases hcond with ⟨v, hl, hp⟩ | hdoor
    · rw [hl]
      dsimp only
      rw [if_pos ((powerMatches_iff _ _).mpr hp), set_false_intended]
      exact lookup_dictPop_self _ _
    · exact absurd ((doorTerminal_iff _).mpr hdoor) hd

theorem check_map_none (st : CoordState) (d : Device) (k : String)
    (h : List.lookup k st.intendedLightStates = none) :
    List.lookup k (checkTransitionComplete st d).intendedLightStates = none := by
  unfold checkTransitionComplete
  dsimp only
  split
  · split
    · split
      · rw [set_false_intended, set_false_intended]
        exact lookup_dictPop_none _ _ _ (lookup_dictPop_none _ _ _ h)
      · rw [set_false_intended]
        exact lookup_dictPop_none _ _ _ h
    · rw [set_false_intended]
      exact lookup_dictPop_none _ _ _ h
  · split
    · split
      · rw [set_false_intended]
        exact lookup_dictPop_none _ _ _ h
      · exact h
    · exact h

theorem transitionLoop_map_none (env : TickEnv) (devices : List Device) :
    ∀ (st : CoordState) (k : String),
      List.lookup k st.intendedLightStates = none →
      List.lookup k (transitionLoop env st devices).1.intendedLightStates = none := by
  induction devices with
  | nil => intro st k h; exact h
  | cons d rest ih =>
    intro st k h
    unfold transitionLoop
    dsimp only
    split
    · cases hr : env.refresh d.serial_number with
      | error e => exact h
      | ok props =>
        dsimp only
        have h2 := ih (checkTransitionComplete st ⟨d.serial_number, props⟩) k
          (check_map_none st ⟨d.serial_number, props⟩ k h)
        cases hl : transitionLoop env (checkTransitionComplete st ⟨d.serial_number, props⟩) rest with
        | mk st2 res =>
          rw [hl] at h2
          cases res <;> exact h2
    · have h2 := ih st k h
      cases hl : transitionLoop env st rest with
      | mk st2 res =>
        rw [hl] at h2
        cases res <;> exact h2

/-- The core of the amended detector-scope property: along a successful
transition-only loop, a tracked device of the roster whose refreshed
properties satisfy the completion condition is cleared from the transition
set and from the intended-value map by the end of the loop. -/
theorem transitionLoop_clears (env : TickEnv) (devices : List Device) :
    ∀ (st st' : CoordState) (ds : List Device) (d : Device)
      (props : List (String × PropVal)),
      transitionLoop env st devices = (st', .ok ds) →
      (devices.map Device.serial_number).Nodup →
      d ∈ devices →
      d.serial_number ∈ st.devicesInTransition →
      env.refresh d.serial_number = .ok props →
      CompletionCond st (Device.mk d.serial_number props) →
      d.serial_number ∉ st'.devicesInTransition ∧
        List.lookup d.serial_number st'.intendedLightStates = none := by
  induction devices with
  | nil =>
    intro st st' ds d props hloop hnodup hmem
    cases hmem
  | cons a rest ih =>
    intro st st' ds d props hloop hnodup hmem htr hr hcond
    unfold transitionLoop at hloop
    rcases List.mem_cons.mp hmem with heq | hmemr
    · subst heq
      rw [if_pos htr, hr] at hloop
      dsimp only at hloop
      have hclear := check_clears st (Device.mk d.serial_number props) hcond
      cases hl : transitionLoop env
          (checkTransitionComplete st (Device.mk d.serial_number props)) rest with
      | mk st2 res =>
        rw [hl] at hloop
        cases res with
        | error e => cases hloop
        | ok ds2 =>
          dsimp only at hloop
          injection hloop with h1 h2
          have hsub := transitionLoop_subset env rest
            (checkTransitionComplete st (Device.mk d.serial_number props))
          have hmap := transitionLoop_map_none env rest
            (checkTransitionComplete st (Device.mk d.serial_number props))
            d.serial_number
            (check_clears_map st (Device.mk d.serial_number props) hcond)
          rw [hl] at hsub hmap
          rw [← h1]
          exact ⟨fun hmem2 => hclear (hsub hmem2), hmap⟩
    · have hne : d.serial_number ≠ a.serial_number := by
        intro he
        have : a.serial_number ∈ rest.map Device.serial_number :=
          he ▸ List.mem_map_of_mem Device.serial_number hmemr
        exact (List.nodup_cons.mp hnodup).1 this
      by_cases hat : a.serial_number ∈ st.devicesInTransition
      · rw [if_pos hat] at hloop
        cases hra : env.refresh a.serial_number with
        | error e => rw [hra] at hloop; cases hloop
        | ok propsA =>
          rw [hra] at hloop
          dsimp only at hloop
          have hpres := check_preserve_ne st (Device.mk a.serial_number propsA)
            d.serial_number hne
          cases hl : transitionLoop env
              (checkTransitionComplete st (Device.mk a.serial_number propsA)) rest with
          | mk st2 res =>
            rw [hl] at hloop
            cases res with
            | error e => cases hloop
            | ok ds2 =>
              dsimp only at hloop
              injection hloop with h1 h2
              rw [← h1]
              refine ih _ st2 ds2 d props hl (List.nodup_cons.mp hnodup).2 hmemr
                (hpres.1.mpr htr) hr ?_
              rcases hcond with ⟨v, hlk, hp⟩ | hdoor
              · exact Or.inl ⟨v, hpres.2.symm ▸ hlk, hp⟩
              · exact Or.inr hdoor
      · rw [if_neg hat] at hloop
        cases hl : transitionLoop env st rest with
        | mk st2 res =>
          rw [hl] at hloop
          cases res with
          | error e => cases hloop
          | ok ds2 =>
            dsimp only at hloop
            injection hloop with h1 h2
            rw [← h1]
            exact ih st st2 ds2 d props hl (List.nodup_cons.mp hnodup).2 hmemr
              htr hr hcond

/-- Counterexample to C5 as stated: a full-refresh tick (forced by 30 s of
elapsed time while latched fast) succeeds, device A is tracked, is
individually refreshed, its refreshed power matches its intended value 1, yet
A is still in the transition set afterwards, because the full-update branch
never runs the completion detector. -/
theorem detector_scope_counterexample :
    _async_update_data
        { devicesInTransition := {"A"}
          intendedLightStates := [("A", 1)]
          updateIntervalSeconds := TRANSITION_UPDATE_INTERVAL
          lastFullUpdate := 0
          data := none }
        { auth := .ok
          getDevices := .ok [⟨"A", []⟩]
          refresh := fun _ => .ok [("power", PropVal.i 1)] } 30 =
      ({ devicesInTransition := {"A"}
         intendedLightStates := [("A", 1)]
         updateIntervalSeconds := TRANSITION_UPDATE_INTERVAL
         lastFullUpdate := 30
         data := none },
        .ok [⟨"A", [("power", PropVal.i 1)]⟩]) ∧
    "A" ∈ ({"A"} : Finset String) ∧
    List.lookup "A" [(("A" : String), (1 : Int))] = some 1 ∧
    (Device.mk "A" [("power", PropVal.i 1)]).get_property_value "power" =
      some (PropVal.i 1) ∧
    "A" ∈ ({ devicesInTransition := {"A"}
             intendedLightStates := [("A", 1)]
             updateIntervalSeconds := TRANSITION_UPDATE_INTERVAL
             lastFullUpdate := 30
             data := none } : CoordState).devicesInTransition :=
  ⟨rfl, by decide, rfl, rfl, by decide⟩

/-- C5 amended: for every successful transition-only tick (serials of the
fetched roster distinct), every tracked device of the roster is individually
refreshed with the completion detector run after its refresh: if its
refreshed properties satisfy the completion condition it ends the tick
cleared from the transition set. During a full refresh the detector does not
run. -/
theorem detector_scope_amended (st st' : CoordState) (env : TickEnv) (t : Int)
    (devices ds : List Device) (d : Device) (props : List (String × PropVal))
    (hnotfull : isFullUpdate st t = false)
    (hdev : env.getDevices = .ok devices)
    (hnodup : (devices.map Device.serial_number).Nodup)
    (hmem : d ∈ devices)
    (htracked : d.serial_number ∈ st.devicesInTransition)
    (hrefresh : env.refresh d.serial_number = .ok props)
    (hcomplete : CompletionCond st (Device.mk d.serial_number props))
    (h : _async_update_data st env t = (st', .ok ds)) :
    d.serial_number ∉ st'.devicesInTransition := by
  unfold _async_update_data updateBody at h
  cases ha : authStep env.auth with
  | error e => rw [ha] at h; cases h
  | ok u =>
    rw [ha, hdev] at h
    dsimp only at h
    rw [if_neg (by simp [hnotfull])] at h
    cases hl : transitionLoop env st devices with
    | mk st2 res =>
      rw [hl] at h
      cases res with
      | error e => cases h
      | ok ds2 =>
        dsimp only at h
        injection h with h1 h2
        rw [← h1]
        exact (transitionLoop_clears env devices st st2 ds2 d props hl hnodup
          hmem htracked hrefresh hcomplete).1

/-- Witness for the amended C5: a concrete transition-only tick clearing the
tracked device A once its refreshed power reads its intended value. -/
theorem detector_scope_amended_witness :
    "A" ∉ (_async_update_data
        { devicesInTransition := {"A"}
          intendedLightStates := [("A", 1)]
          updateIntervalSeconds := TRANSITION_UPDATE_INTERVAL
          lastFullUpdate := 0
          data := none }
        { auth := .ok
          getDevices := .ok [⟨"A", []⟩]
          refresh := fun _ => .ok [("power", PropVal.i 1)] } 5).1.devicesInTransition :=
  detector_scope_amended
    { devicesInTransition := {"A"}
      intendedLightStates := [("A", 1)]
      updateIntervalSeconds := TRANSITION_UPDATE_INTERVAL
      lastFullUpdate := 0
      data := none }
    (_async_update_data
      { devicesInTransition := {"A"}
        intendedLightStates := [("A", 1)]
        updateIntervalSeconds := TRANSITION_UPDATE_INTERVAL
        lastFullUpdate := 0
        data := none }
      { auth := .ok
        getDevices := .ok [⟨"A", []⟩]
        refresh := fun _ => .ok [("power", PropVal.i 1)] } 5).1
    { auth := .ok
      getDevices := .ok [⟨"A", []⟩]
      refresh := fun _ => .ok [("power", PropVal.i 1)] }
    5 [⟨"A", []⟩] [⟨"A", [("power", PropVal.i 1)]⟩]
    ⟨"A", []⟩ [("power", PropVal.i 1)]
    rfl rfl (by decide) (List.mem_singleton.mpr rfl) (by decide) rfl
    (Or.inl ⟨1, rfl, rfl⟩) rfl

/-! ### Failed ticks are not atomic for transition state (C10) -/

theorem transitionLoop_cons_tracked (env : TickEnv) (st : CoordState)
    (a : Device) (rest : List Device) (props : List (String × PropVal))
    (hat : a.serial_number ∈ st.devicesInTransition)
    (hra : env.refresh a.serial_number = .ok props) :
    transitionLoop env st (a :: rest) =
      (match transitionLoop env
          (checkTransitionComplete st ⟨a.serial_number, props⟩) rest with
       | (st2, .error e) => (st2, .error e)
       | (st2, .ok ds) =>
          (st2, .ok ((⟨a.serial_number, props⟩ : Device) :: ds))) := by
  conv_lhs => rw [transitionLoop]
  rw [if_pos hat, hra]

theorem transitionLoop_cons_tracked_err (env : TickEnv) (st : CoordState)
    (a : Device) (rest : List Device) (e : PyErr)
    (hat : a.serial_number ∈ st.devicesInTransition)
    (hra : env.refresh a.serial_number = .error e) :
    transitionLoop env st (a :: rest) = (st, .error e) := by
  conv_lhs => rw [transitionLoop]
  rw [if_pos hat, hra]

theorem transitionLoop_cons_untracked (env : TickEnv) (st : CoordState)
    (a : Device) (rest : List Device)
    (hat : a.serial_number ∉ st.devicesInTransition) :
    transitionLoop env st (a :: rest) =
      (match transitionLoop env st rest with
       | (st2, .error e) => (st2, .error e)
       | (st2, .ok ds) => (st2, .ok (a :: ds))) := by
  conv_lhs => rw [transitionLoop]
  rw [if_neg hat]

/-- Splitting the transition-only loop: after a successfully processed prefix,
the loop continues from the prefix-mutated state. -/
theorem transitionLoop_append (env : TickEnv) (post : List Device) :
    ∀ (pre : List Device) (st st1 : CoordState) (ds1 : List Device),
      transitionLoop env st pre = (st1, .ok ds1) →
      transitionLoop env st (pre ++ post) =
        (match transitionLoop env st1 post with
         | (st2, .error e) => (st2, .error e)
         | (st2, .ok ds2) => (st2, .ok (ds1 ++ ds2))) := by
  intro pre
  induction pre with
  | nil =>
    intro st st1 ds1 hpre
    injection hpre with h1 h2
    injection h2 with h3
    subst h1
    subst h3
    rw [List.nil_append]
    cases hl : transitionLoop env st post with
    | mk st2 res => cases res <;> simp
  | cons a pre ih =>
    intro st st1 ds1 hpre
    rw [List.cons_append]
    by_cases hat : a.serial_number ∈ st.devicesInTransition
    · cases hra : env.refresh a.serial_number with
      | error e =>
        rw [transitionLoop_cons_tracked_err env st a pre e hat hra] at hpre
        cases hpre
      | ok props =>
        rw [transitionLoop_cons_tracked env st a pre props hat hra] at hpre
        rw [transitionLoop_cons_tracked env st a (pre ++ post) props hat hra]
        cases hl : transitionLoop env
            (checkTransitionComplete st ⟨a.serial_number, props⟩) pre with
        | mk stm resm =>
          rw [hl] at hpre
          cases resm with
          | error e => cases hpre
          | ok dsm =>
            dsimp only at hpre
            injection hpre with h1 h2
            injection h2 with h3
            rw [ih (checkTransitionComplete st ⟨a.serial_number, props⟩) stm dsm hl,
              ← h1, ← h3]
            cases hp : transitionLoop env stm post with
            | mk st2 res2 =>
              cases res2 with
              | error e => rfl
              | ok ds2 => simp
    · rw [transitionLoop_cons_untracked env st a pre hat] at hpre
      rw [transitionLoop_cons_untracked env st a (pre ++ post) hat]
      cases hl : transitionLoop env st pre with
      | mk stm resm =>
        rw [hl] at hpre
        cases resm with
        | error e => cases hpre
        | ok dsm =>
          dsimp only at hpre
          injection hpre with h1 h2
          injection h2 with h3
          rw [ih st stm dsm hl, ← h1, ← h3]
          cases hp : transitionLoop env stm post with
          | mk st2 res2 =>
            cases res2 with
            | error e => rfl
            | ok ds2 => simp

/-- C10: a tick whose transition-only loop fails after a tracked,
completion-satisfying device was already processed still performs and keeps
that clear: the tick ends in a single UpdateFailed carrying the cause, the
published roster is untouched, and yet the cleared device is gone from both
the transition set and the intended-value map of the final state. -/
theorem failed_tick_partial_clears (st st' st1 : CoordState) (env : TickEnv)
    (t : Int) (e : PyErr) (pre post ds1 : List Device)
    (d : Device) (props : List (String × PropVal))
    (hauth : authStep env.auth = .ok ())
    (hnotfull : isFullUpdate st t = false)
    (hdev : env.getDevices = .ok (pre ++ post))
    (hpre : transitionLoop env st pre = (st1, .ok ds1))
    (hnodup : (pre.map Device.serial_number).Nodup)
    (hmem : d ∈ pre)
    (htracked : d.serial_number ∈ st.devicesInTransition)
    (hrefresh : env.refresh d.serial_number = .ok props)
    (hcomplete : CompletionCond st (Device.mk d.serial_number props))
    (herr : _async_update_data st env t = (st', .error e)) :
    d.serial_number ∉ st'.devicesInTransition ∧
      List.lookup d.serial_number st'.intendedLightStates = none ∧
      st'.data = st.data ∧
      ∃ c, e = PyErr.updateFailed ("Exception on getting states: " ++ c.str) (some c) := by
  unfold _async_update_data updateBody at herr
  rw [hauth, hdev] at herr
  dsimp only at herr
  rw [if_neg (by simp [hnotfull])] at herr
  rw [transitionLoop_append env post pre st st1 ds1 hpre] at herr
  have hcl := transitionLoop_clears env pre st st1 ds1 d props hpre hnodup hmem
    htracked hrefresh hcomplete
  cases hp : transitionLoop env st1 post with
  | mk st2 res =>
    rw [hp] at herr
    cases res with
    | ok ds2 =>
      dsimp only at herr
      injection herr with h1 h2
      cases h2
    | error e0 =>
      dsimp only at herr
      injection herr with h1 h2
      injection h2 with h3
      have hsub := transitionLoop_subset env post st1
      have hmap := transitionLoop_map_none env post st1 d.serial_number hcl.2
      have hdata := (transitionLoop_preserves env post st1).2
      have hdata0 := (transitionLoop_preserves env pre st).2
      rw [hp] at hsub hmap hdata
      rw [hpre] at hdata0
      refine ⟨?_, ?_, ?_, ⟨e0, h3.symm⟩⟩
      · rw [← h1]
        exact fun hm => hcl.1 (hsub hm)
      · rw [← h1]
        exact hmap
      · rw [← h1]
        exact hdata.trans hdata0

/-- Witness for C10: devices A and B both tracked, A with intended power 1;
the tick refreshes A (confirming power 1, clearing A), then fails refreshing
B; the failed tick keeps the clear of A, keeps B tracked, and leaves the
published roster untouched. -/
theorem failed_tick_partial_clears_witness :
    "A" ∉ ({ devicesInTransition := {"B"}
             intendedLightStates := []
             updateIntervalSeconds := TRANSITION_UPDATE_INTERVAL
             lastFullUpdate := 0
             data := none } : CoordState).devicesInTransition ∧
      List.lookup "A"
        ({ devicesInTransition := {"B"}
           intendedLightStates := []
           updateIntervalSeconds := TRANSITION_UPDATE_INTERVAL
           lastFullUpdate := 0
           data := none } : CoordState).intendedLightStates = none ∧
      ({ devicesInTransition := {"B"}
         intendedLightStates := []
         updateIntervalSeconds := TRANSITION_UPDATE_INTERVAL
         lastFullUpdate := 0
         data := none } : CoordState).data =
        ({ devicesInTransition := {"A", "B"}
           intendedLightStates := [("A", 1)]
           updateIntervalSeconds := TRANSITION_UPDATE_INTERVAL
           lastFullUpdate := 0
           data := none } : CoordState).data ∧
      ∃ c, PyErr.updateFailed ("Exception on getting states: " ++ (PyErr.exc "io").str)
          (some (PyErr.exc "io")) =
        PyErr.updateFailed ("Exception on getting states: " ++ c.str) (some c) :=
  failed_tick_partial_clears
    { devicesInTransition := {"A", "B"}
      intendedLightStates := [("A", 1)]
      updateIntervalSeconds := TRANSITION_UPDATE_INTERVAL
      lastFullUpdate := 0
      data := none }
    { devicesInTransition := {"B"}
      intendedLightStates := []
      updateIntervalSeconds := TRANSITION_UPDATE_INTERVAL
      lastFullUpdate := 0
      data := none }
    { devicesInTransition := {"B"}
      intendedLightStates := []
      updateIntervalSeconds := TRANSITION_UPDATE_INTERVAL
      lastFullUpdate := 0
      data := none }
    { auth := .ok
      getDevices := .ok [⟨"A", []⟩, ⟨"B", []⟩]
      refresh := fun s => if s = "A" then .ok [("power", PropVal.i 1)] else .error (.exc "io") }
    5
    (PyErr.updateFailed ("Exception on getting states: " ++ (PyErr.exc "io").str)
      (some (PyErr.exc "io")))
    [⟨"A", []⟩] [⟨"B", []⟩] [⟨"A", [("power", PropVal.i 1)]⟩]
    ⟨"A", []⟩ [("power", PropVal.i 1)]
    rfl rfl rfl rfl (by decide) (List.mem_singleton.mpr rfl) (by decide) rfl
    (Or.inl ⟨1, rfl, rfl⟩) rfl

/-! ### Optimistic overlay read contract (C6) -/

/-- C6: after a turn-on command asserts the optimistic on-state (and its
writes succeed), is_on reads true whatever the confirmed roster holds; after
the async_update invalidation hook clears the optimistic values, is_on,
brightness, color_temp and hs_color all reflect only the confirmed roster. -/
theorem optimistic_overlay_read (ls : LightState) (kw : TurnOnKwargs)
    (roster : List Device) :
    is_on (async_turn_on ls kw true) roster = .ofBool true ∧
    is_on (light_async_update ls) roster = is_on_confirmed roster ls.serial ∧
    brightness (light_async_update ls) roster = brightness_confirmed roster ls.serial ∧
    color_temp (light_async_update ls) roster = color_temp_confirmed roster ls.serial ∧
    hs_color (light_async_update ls) roster = hs_color_confirmed roster ls.serial :=
  ⟨rfl, rfl, rfl, rfl, rfl⟩

/-! ### Commit-failure scoping (C7) -/

/-- C7: when a write of a turn-on (or turn-off) command raises, only the
optimistic on-state is discarded, so is_on falls through to the confirmed
roster, while the optimistic brightness, color temperature and hs color
asserted by the same call stay exactly as the assertion phase left them. -/
theorem commit_failure_scoping (ls : LightState) (kw : TurnOnKwargs)
    (roster : List Device) :
    (async_turn_on ls kw false).optimistic_is_on = none ∧
    (async_turn_on ls kw false).optimistic_brightness =
      (turnOnAssert ls kw).optimistic_brightness ∧
    (async_turn_on ls kw false).optimistic_color_temp =
      (turnOnAssert ls kw).optimistic_color_temp ∧
    (async_turn_on ls kw false).optimistic_hs_color =
      (turnOnAssert ls kw).optimistic_hs_color ∧
    is_on (async_turn_on ls kw false) roster = is_on_confirmed roster ls.serial ∧
    (async_turn_off ls false).optimistic_is_on = none ∧
    (async_turn_off ls false).optimistic_brightness = ls.optimistic_brightness ∧
    (async_turn_off ls false).optimistic_color_temp = ls.optimistic_color_temp ∧
    (async_turn_off ls false).optimistic_hs_color = ls.optimistic_hs_color :=
  ⟨rfl, rfl, rfl, rfl, rfl, rfl, rfl, rfl, rfl⟩

/-! ### Unit conversions (C8, C9) -/

/-- Counterexample to C8 as stated: the code exposes a stored brightness of 50
as int(50 * 255 / 100) = 127, not round(50 * 255 / 100) = 128; the conversion
truncates toward zero instead of rounding. -/
theorem unit_conversion_counterexample :
    brightness
        { serial := "L", optimistic_is_on := none, optimistic_brightness := none,
          optimistic_color_temp := none, optimistic_hs_color := none }
        [⟨"L", [("brightness", PropVal.i 50)]⟩] = some 127 ∧
      round ((50 : ℚ) * 255 / 100) = 128 ∧ (127 : Int) ≠ 128 :=
  ⟨rfl, by norm_num [round_eq], by decide⟩

/-- C8 amended: the conversions apply Python int() truncation toward zero, not
rounding: brightness is exposed as int(stored * 255 / 100) and written back as
int(exposed * 100 / 255); color temperature is exposed as
int(153 + (100 - stored) * (500 - 153) / 100) and written back as
int(100 - (mired - 153) * 100 / (500 - 153)); hue is reduced modulo 360 into
[0, 360). -/
theorem unit_conversion_formulas :
    (∀ (ls : LightState) (roster : List Device) (d : Device) (v : Int),
      ls.optimistic_brightness = none →
      _get_device roster ls.serial = some d →
      d.get_property_value "brightness" = some (PropVal.i v) →
      brightness ls roster = some (pyInt (v * 255) 100)) ∧
    (∀ (kw : TurnOnKwargs) (b : Int), kw.brightness = some b →
      ("brightness", PropVal.i (pyInt (b * 100) 255)) ∈ turnOnWrites kw) ∧
    (∀ (ls : LightState) (roster : List Device) (d : Device) (v : Int),
      ls.optimistic_color_temp = none →
      _get_device roster ls.serial = some d →
      d.get_property_value "mode" = some (PropVal.s "white") →
      d.get_property_value "color_temp" = some (PropVal.i v) →
      color_temp ls roster = some (pyInt (15300 + (100 - v) * 347) 100)) ∧
    (∀ (kw : TurnOnKwargs) (m : Int), kw.hs_color = none → kw.color_temp = some m →
      ("color_temp", PropVal.i (pyInt (34700 - (m - 153) * 100) 347)) ∈ turnOnWrites kw) ∧
    (∀ (ls : LightState) (roster : List Device) (d : Device) (hu sa : Int),
      ls.optimistic_hs_color = none →
      _get_device roster ls.serial = some d →
      d.get_property_value "mode" = some (PropVal.s "colour") →
      d.get_property_value "color_select" = some (PropVal.i hu) →
      d.get_property_value "color_saturation" = some (PropVal.i sa) →
      hs_color ls roster = some (((hu % 360 : Int) : ℚ), (sa : ℚ)) ∧
        0 ≤ hu % 360 ∧ hu % 360 < 360) := by
  refine ⟨?_, ?_, ?_, ?_, ?_⟩
  · intro ls roster d v h0 h1 h2
    unfold brightness brightness_confirmed
    rw [h0, h1]
    dsimp only
    rw [h2]
    rfl
  · intro kw b hb
    simp [turnOnWrites, hb, brightnessToStored]
  · intro ls roster d v h0 h1 h2 h3
    unfold color_temp color_temp_confirmed
    rw [h0, h1]
    dsimp only
    rw [if_pos h2, h3]
    rfl
  · intro kw m h1 h2
    simp [turnOnWrites, h1, h2, colorTempToStored]
  · intro ls roster d hu sa h0 h1 h2 h3 h4
    refine ⟨?_, Int.emod_nonneg hu (by decide), Int.emod_lt_of_pos hu (by decide)⟩
    unfold hs_color hs_color_confirmed
    rw [h0, h1]
    dsimp only
    rw [if_pos h2, h3, h4]

/-- Witness for the amended C8: the five conversion equations evaluated at
concrete devices and commands. -/
theorem unit_conversion_formulas_witness :
    brightness
        { serial := "L", optimistic_is_on := none, optimistic_brightness := none,
          optimistic_color_temp := none, optimistic_hs_color := none }
        [⟨"L", [("brightness", PropVal.i 50)]⟩] = some (pyInt (50 * 255) 100) ∧
    ("brightness", PropVal.i (pyInt (128 * 100) 255)) ∈
      turnOnWrites ⟨some 128, none, none⟩ ∧
    color_temp
        { serial := "L", optimistic_is_on := none, optimistic_brightness := none,
          optimistic_color_temp := none, optimistic_hs_color := none }
        [⟨"L", [("mode", PropVal.s "white"), ("color_temp", PropVal.i 40)]⟩] =
      some (pyInt (15300 + (100 - 40) * 347) 100) ∧
    ("color_temp", PropVal.i (pyInt (34700 - (300 - 153) * 100) 347)) ∈
      turnOnWrites ⟨none, some 300, none⟩ ∧
    (hs_color
        { serial := "L", optimistic_is_on := none, optimistic_brightness := none,
          optimistic_color_temp := none, optimistic_hs_color := none }
        [⟨"L", [("mode", PropVal.s "colour"), ("color_select", PropVal.i 400),
          ("color_saturation", PropVal.i 50)]⟩] =
        some (((400 % 360 : Int) : ℚ), ((50 : Int) : ℚ)) ∧
      0 ≤ (400 : Int) % 360 ∧ (400 : Int) % 360 < 360) :=
  ⟨unit_conversion_formulas.1 _ _ _ 50 rfl rfl rfl,
    unit_conversion_formulas.2.1 _ 128 rfl,
    unit_conversion_formulas.2.2.1 _ _ _ 40 rfl rfl rfl rfl,
    unit_conversion_formulas.2.2.2.1 _ 300 rfl rfl,
    unit_conversion_formulas.2.2.2.2 _ _ _ 400 50 rfl rfl rfl rfl rfl⟩

/-- C9: the conversion round-trips at the listed points are exact, hence
within one unit: exposed brightness 255 converts to stored 100 and back to
255; mired 153 converts to stored 100 and back to 153; mired 500 converts to
stored 0 and back to 500. -/
theorem conversion_round_trips :
    brightnessToStored 255 = 100 ∧ brightnessFromStored 100 = 255 ∧
    colorTempToStored 153 = 100 ∧ colorTempFromStored 100 = 153 ∧
    colorTempToStored 500 = 0 ∧ colorTempFromStored 0 = 500 ∧
    (brightnessFromStored (brightnessToStored 255) - 255).natAbs ≤ 1 ∧
    (colorTempFromStored (colorTempToStored 153) - 153).natAbs ≤ 1 ∧
    (colorTempFromStored (colorTempToStored 500) - 500).natAbs ≤ 1 := by
  decide

end NomaIQ
